import Mathlib

/-!
# Verification of the speech transcription backend

Shallow embedding of `backend/app/transcription.py` and
`backend/app/websocket.py` of the speech transcription platform.

The embedding covers:
* the event-driven aggregation performed by `TranscriptionService.transcribe_file`
  (handlers `recognized_handler`, `canceled_handler`, `session_stopped_handler`
  and the result construction at the end of the function);
* the single-shot result construction of `TranscriptionService.recognize_from_stream`;
* the per-event outbound messages produced by the handler closures inside
  `TranscriptionService.recognize_continuous`;
* the teardown (`finally`) blocks of the two websocket endpoints in
  `websocket.py`, modelled as explicit step sequences with per-step faults;
* the guarded transcoder-kill block, modelled as a `terminate` operation on a
  process handle carrying an optional return code;
* the ordering of PCM writes, the stdout reader's end-of-stream observation and
  the push-stream close, modelled as traces of atomic actions with the
  exception path allowing any interleaving of the orphaned reader task with
  the cleanup code.
-/

namespace Speech

/-! ## Outbound message shapes (JSON dictionaries) -/

/-- A JSON value as used in the outbound result dictionaries: either a string
or `null`. -/
inductive JValue where
  | str (v : String)
  | null
deriving DecidableEq, Repr

/-- An outbound JSON object: an ordered list of key/value pairs, exactly the
keys written in the corresponding Python dict literal. -/
abbrev OutMsg := List (String × JValue)

/-- Embed a Python `Optional[str]` into a JSON value (`None` becomes `null`). -/
def jopt : Option String → JValue
  | none => .null
  | some s => .str s

/-- Whether the object has a field with the given key. -/
def hasField (m : OutMsg) (k : String) : Bool := m.any (fun kv => kv.1 == k)

/-- Whether the object has all four fields of the outbound contract. -/
def hasAllFour (m : OutMsg) : Bool :=
  hasField m "status" && hasField m "language" && hasField m "text" && hasField m "error"

/-- The value of the `status` field, when present. -/
def statusOf (m : OutMsg) : Option JValue :=
  (m.find? (fun kv => kv.1 == "status")).map Prod.snd

/-- The statuses enumerated by the outbound message contract. -/
def allowedStatuses : List String :=
  ["recognized", "completed", "no_speech", "no_match", "failed", "stopped", "error"]

/-- Whether the object's `status` field holds one of the contract's statuses. -/
def statusAllowed (m : OutMsg) : Bool :=
  match statusOf m with
  | some (.str s) => allowedStatuses.contains s
  | _ => false

/-- A message with `stopped` or `error` status: a terminal event for the
caller of the continuous endpoint. -/
def isTerminalMsg (m : OutMsg) : Bool :=
  match statusOf m with
  | some (.str s) => s == "stopped" || s == "error"
  | _ => false

/-- The result dictionary shape returned by the transcription service
functions: always the four keys `language`, `text`, `status`, `error`. -/
structure ResultMsg where
  language : Option String
  text : Option String
  status : String
  error : Option String
deriving DecidableEq, Repr

/-- View a result dictionary as an outbound JSON object. -/
def ResultMsg.toMsg (r : ResultMsg) : OutMsg :=
  [("language", jopt r.language), ("text", jopt r.text),
   ("status", .str r.status), ("error", jopt r.error)]

/-! ## Recognition events -/

/-- Cancellation reasons of the speech SDK that the handlers inspect. -/
inductive CancellationReason where
  | error
  | endOfStream
  | cancelledByUser
deriving DecidableEq, Repr

/-- The string rendering of a cancellation reason used in f-strings. -/
def reasonStr : CancellationReason → String
  | .error => "CancellationReason.Error"
  | .endOfStream => "CancellationReason.EndOfStream"
  | .cancelledByUser => "CancellationReason.CancelledByUser"

/-- The cancellation details carried by a `canceled` event. -/
structure CancellationDetails where
  reason : CancellationReason
  error_details : String
deriving DecidableEq, Repr

/-- Outcome of evaluating `AutoDetectSourceLanguageResult(evt.result).language`
for a recognized event: the construction either raises, or yields the
`language` attribute, which is an optional string. -/
inductive LangExtract where
  | raised
  | value (l : Option String)
deriving DecidableEq, Repr

/-- The engine events delivered to the connected handlers.  `recognized` is an
event whose result reason is `RecognizedSpeech`; `noMatch` is a recognized
callback with reason `NoMatch`. -/
inductive RecognitionEvent where
  | recognized (text : String) (lang : LangExtract)
  | noMatch
  | sessionStarted
  | sessionStopped
  | canceled (details : CancellationDetails)
deriving DecidableEq, Repr

/-- Python truthiness of an `Optional[str]`: `None` and the empty string are
falsy. -/
def pyTruthy : Option String → Bool
  | none => false
  | some s => !(s == "")

/-- Python `x or "unknown"` on an `Optional[str]`. -/
def pyOrUnknown (l : Option String) : String :=
  match l with
  | none => "unknown"
  | some s => if s == "" then "unknown" else s

/-! ## `transcribe_file`: continuous recognition over a file, aggregated -/

/-- The mutable state shared by the handler closures in `transcribe_file`:
`all_results`, `detected_language` and `error_message`. -/
structure FileState where
  all_results : List String
  detected_language : Option String
  error_message : Option String
deriving DecidableEq, Repr

/-- The state at the start of `transcribe_file`. -/
def initFileState : FileState := ⟨[], none, none⟩

/-- The error message composed by `canceled_handler`:
`f"Recognition canceled: {cancellation.reason}"`, extended with
`f" - Details: {cancellation.error_details}"` when the reason is `Error`. -/
def canceledMessage (d : CancellationDetails) : String :=
  let base := "Recognition canceled: " ++ reasonStr d.reason
  if d.reason = .error then base ++ " - Details: " ++ d.error_details else base

/-- The value assigned to `detected_language` by `recognized_handler` when it
is still falsy: the extracted language on success, `"unknown"` when the
extraction raised. -/
def extractLanguage : LangExtract → Option String
  | .raised => some "unknown"
  | .value l => l

/-- One handler invocation of `transcribe_file`: `recognized_handler` appends
the text and captures the language while `detected_language` is falsy;
`canceled_handler` records the error message; the session-started and
session-stopped handlers only log / signal the waiting coroutine. -/
def stepFile (s : FileState) : RecognitionEvent → FileState
  | .recognized t lang =>
      let dl := if pyTruthy s.detected_language then s.detected_language
                else extractLanguage lang
      { s with detected_language := dl, all_results := s.all_results ++ [t] }
  | .canceled d => { s with error_message := some (canceledMessage d) }
  | _ => s

/-- The result construction at the end of `transcribe_file` (the
`--- Process results ---` section). -/
def finalizeFile (s : FileState) : ResultMsg :=
  if pyTruthy s.error_message then
    { language := some (pyOrUnknown s.detected_language)
      text := if s.all_results.isEmpty then none
              else some (String.intercalate " " s.all_results)
      status := "failed"
      error := s.error_message }
  else if s.all_results.isEmpty then
    { language := some (pyOrUnknown s.detected_language)
      text := none
      status := "no_speech"
      error := some "No speech detected in audio" }
  else
    { language := some (pyOrUnknown s.detected_language)
      text := some (String.intercalate " " s.all_results)
      status := "completed"
      error := none }

/-- `TranscriptionService.transcribe_file`, as a function of the event
sequence the engine delivers to the connected handlers. -/
def transcribe_file (events : List RecognitionEvent) : ResultMsg :=
  finalizeFile (events.foldl stepFile initFileState)

/-! ## `recognize_from_stream`: one-shot recognition -/

/-- The `reason` attribute of the result returned by `recognize_once`. -/
inductive SdkReason where
  | recognizedSpeech
  | noMatch
  | canceled
deriving DecidableEq, Repr

/-- The string rendering of a result reason used in the f-string of the
non-recognized branch. -/
def sdkReasonStr : SdkReason → String
  | .recognizedSpeech => "ResultReason.RecognizedSpeech"
  | .noMatch => "ResultReason.NoMatch"
  | .canceled => "ResultReason.Canceled"

/-- The `recognize_once` result inspected by `recognize_from_stream`. -/
structure OnceResult where
  reason : SdkReason
  text : String
  lang : Option String
  cancelReason : String
deriving DecidableEq, Repr

/-- The dictionary built by `recognize_from_stream` from a `recognize_once`
result (the non-exception paths). -/
def recognize_from_stream (r : OnceResult) : ResultMsg :=
  if r.reason = .recognizedSpeech then
    { language := r.lang, text := some r.text, status := "completed", error := none }
  else
    let er := if r.reason = .canceled then r.cancelReason else sdkReasonStr r.reason
    { language := none, text := none, status := "no_match_or_error"
      error := some ("Stream (once) ended: " ++ er) }

/-- The dictionary returned by the `except` branch of
`recognize_from_stream`. -/
def onceFailedMsg (e : String) : ResultMsg :=
  { language := none, text := none, status := "failed", error := some e }

/-! ## `recognize_continuous`: per-event outbound messages -/

/-- The dict sent by the `recognized_handler` closure of
`recognize_continuous`. -/
def contRecognizedMsg (l : Option String) (t : String) : OutMsg :=
  [("language", jopt l), ("text", .str t), ("status", .str "recognized"), ("error", .null)]

/-- The error message composed by the `canceled_handler` closure of
`recognize_continuous`. -/
def contCanceledMessage (d : CancellationDetails) : String :=
  let base := "Continuous recognition (stream) canceled: " ++ reasonStr d.reason
  if d.reason = .error then base ++ " - Details: " ++ d.error_details else base

/-- The dict sent by the `canceled_handler` closure of
`recognize_continuous`: only `status` and `error` keys. -/
def contErrorMsg (e : String) : OutMsg :=
  [("status", .str "error"), ("error", .str e)]

/-- The dict sent by the `session_stopped_handler` closure of
`recognize_continuous`: only `status` and `error` keys. -/
def contStoppedMsg : OutMsg :=
  [("status", .str "stopped"), ("error", .null)]

/-- The outbound message (if any) scheduled for one engine event by the
handler closures of `recognize_continuous`.  A recognized event whose
language extraction raises sends nothing (the exception escapes before
`run_coroutine_threadsafe`); `NoMatch` and session-started only log. -/
def continuousMessage : RecognitionEvent → Option OutMsg
  | .recognized t lang =>
      match lang with
      | .raised => none
      | .value l => some (contRecognizedMsg l t)
  | .noMatch => none
  | .sessionStarted => none
  | .sessionStopped => some contStoppedMsg
  | .canceled d => some (contErrorMsg (contCanceledMessage d))

/-- The sequence of outbound messages produced for an engine event
sequence in continuous mode. -/
def recognize_continuous_msgs (events : List RecognitionEvent) : List OutMsg :=
  events.filterMap continuousMessage

/-- Whether an engine event is terminal (`SessionStopped` or `Canceled`). -/
def isTerminalEvent : RecognitionEvent → Bool
  | .sessionStopped => true
  | .canceled _ => true
  | _ => false

/-! ## Websocket teardown (`finally` blocks of `websocket.py`) -/

/-- The cleanup steps of the websocket endpoints. -/
inductive Step where
  | stopRecognizer
  | closeStream
  | killProcess
  | disconnect
  | closeWebsocket
deriving DecidableEq, Repr

/-- Which session resources exist when the `finally` block runs:
`recognizer`, `stream` and `ffmpeg_process` being non-`None`, and whether
`ffmpeg_process.returncode is None` (the process has not exited). -/
structure SessionRes where
  recognizerSet : Bool
  streamSet : Bool
  processSet : Bool
  processRunning : Bool
deriving DecidableEq, Repr

/-- Which cleanup operations raise when invoked. -/
structure Faults where
  stopRaises : Bool
  closeRaises : Bool
  killRaises : Bool
  wsCloseRaises : Bool
deriving DecidableEq, Repr

/-- The observable outcome of a teardown: the steps whose operation was
invoked, in order; the steps whose failure was caught and logged; and
whether the teardown block itself propagated an exception (aborting the
remaining steps). -/
structure TeardownTrace where
  steps : List Step
  loggedFailures : List Step
  raised : Bool
deriving DecidableEq, Repr

/-- The tail of the continuous endpoint's `finally` block after the stream
close: the guarded process kill (failure logged), `manager.disconnect`, and
the guarded `websocket.close()` (failure swallowed). -/
def restContinuous (steps logged : List Step) (r : SessionRes) (f : Faults) :
    TeardownTrace :=
  let steps2 := if r.processSet && r.processRunning then steps ++ [Step.killProcess]
                else steps
  let logged2 := if r.processSet && r.processRunning && f.killRaises then
                   logged ++ [Step.killProcess]
                 else logged
  { steps := steps2 ++ [Step.disconnect, Step.closeWebsocket]
    loggedFailures := logged2
    raised := false }

/-- The `finally` block of `websocket_continuous_recognition`: the recognizer
stop is wrapped in `try/except` (failure logged); `stream.close()` is NOT
guarded, so if it raises the remaining steps are skipped and the exception
propagates; then the guarded kill, the registry removal and the guarded
websocket close. -/
def teardownContinuous (r : SessionRes) (f : Faults) : TeardownTrace :=
  let steps0 : List Step := if r.recognizerSet then [Step.stopRecognizer] else []
  let logged0 : List Step :=
    if r.recognizerSet && f.stopRaises then [Step.stopRecognizer] else []
  if r.streamSet then
    let steps1 := steps0 ++ [Step.closeStream]
    if f.closeRaises then
      { steps := steps1, loggedFailures := logged0, raised := true }
    else
      restContinuous steps1 logged0 r f
  else
    restContinuous steps0 logged0 r f

/-- The `finally` block of `websocket_single_recognition`: the stream close is
wrapped in `try/except Exception: pass` (failure swallowed, not logged); then
the guarded kill (failure logged), the registry removal and the guarded
websocket close. -/
def teardownOnce (r : SessionRes) (f : Faults) : TeardownTrace :=
  let steps0 : List Step := if r.streamSet then [Step.closeStream] else []
  let steps1 := if r.processSet && r.processRunning then steps0 ++ [Step.killProcess]
                else steps0
  let logged1 : List Step :=
    if r.processSet && r.processRunning && f.killRaises then [Step.killProcess] else []
  { steps := steps1 ++ [Step.disconnect, Step.closeWebsocket]
    loggedFailures := logged1
    raised := false }

/-- The session has reached its terminal `Closed` state: the teardown ran to
the end (outbound connection closed) without propagating. -/
def reachedClosed (t : TeardownTrace) : Bool :=
  t.steps.contains Step.closeWebsocket && !t.raised

/-! ## The transcoder process handle and the guarded kill -/

/-- The transcoder process handle: only its `returncode` matters to the
teardown guard (`None` while the process runs). -/
structure Proc where
  returncode : Option Int
deriving DecidableEq, Repr

/-- A natural exit of the process with the given exit code. -/
def naturalExit (code : Int) : Proc := { returncode := some code }

/-- `Process.kill`: raises `ProcessLookupError` when the process has already
exited. -/
def procKill (p : Proc) (code : Int) : Except String Proc :=
  if p.returncode = none then .ok { returncode := some code }
  else .error "ProcessLookupError"

/-- The guarded kill block
`if ffmpeg_process and ffmpeg_process.returncode is None: kill; wait`
as a terminate operation: returns the process handle and the number of kills
performed. -/
def terminate (p : Proc) (code : Int) : Except String (Proc × Nat) :=
  if p.returncode = none then
    match procKill p code with
    | .ok q => .ok (q, 1)
    | .error e => .error e
  else .ok (p, 0)

/-- Two successive invocations of the terminate operation, accumulating the
number of kills performed. -/
def terminateTwice (p : Proc) (c2 c3 : Int) : Except String (Proc × Nat) :=
  match terminate p c2 with
  | .error e => .error e
  | .ok (q, n) =>
    match terminate q c3 with
    | .error e => .error e
    | .ok (r, m) => .ok (r, n + m)

/-! ## PCM forwarding and push-stream close ordering -/

/-- Atomic actions of the stdout-reader task and the cleanup code:
a PCM chunk written to the push stream, the reader observing end-of-stream,
and `stream.close()`. -/
inductive Act where
  | writePCM
  | readerEOF
  | closeStream
deriving DecidableEq, Repr

/-- The actions of `read_ffmpeg_stdout` when ffmpeg's stdout yields `n`
chunks: `n` pushes followed by the end-of-stream observation. -/
def readerProg (n : Nat) : List Act :=
  List.replicate n Act.writePCM ++ [Act.readerEOF]

/-- The action trace on the normal exit path: the main coroutine awaits
`stdout_task` before the `finally` block closes the stream, so the whole
reader program precedes the close. -/
def normalExitTrace (n : Nat) : List Act :=
  readerProg n ++ [Act.closeStream]

/-- `interleaves xs ys zs`: `zs` is an interleaving of `xs` and `ys`
(order within each preserved). -/
def interleaves : List Act → List Act → List Act → Bool
  | [], ys, zs => ys == zs
  | xs, [], zs => xs == zs
  | _ :: _, _ :: _, [] => false
  | x :: xs, y :: ys, z :: zs =>
      (z == x && interleaves xs (y :: ys) zs) ||
      (z == y && interleaves (x :: xs) ys zs)

/-- Admissible traces on an exception path: when an exception escapes the
inbound-read loop, `await stdout_task` is skipped and the `finally` block
(whose only stream action is the close) runs concurrently with the orphaned
reader task, so any interleaving of the reader program with the close is
possible. -/
def exceptionTraceAdmissible (n : Nat) (t : List Act) : Bool :=
  interleaves [Act.closeStream] (readerProg n) t

/-- Every `closeStream` in the trace is preceded by a `readerEOF`. -/
def closeAfterEOFAux (seenEOF : Bool) : List Act → Bool
  | [] => true
  | .readerEOF :: rest => closeAfterEOFAux true rest
  | .closeStream :: rest => seenEOF && closeAfterEOFAux seenEOF rest
  | .writePCM :: rest => closeAfterEOFAux seenEOF rest

/-- The push-stream close happens only after the reader observed
end-of-stream. -/
def closeAfterEOF (t : List Act) : Bool := closeAfterEOFAux false t

/-- No PCM chunk is written to the push stream after a `closeStream`. -/
def noWriteAfterClose : List Act → Bool
  | [] => true
  | .closeStream :: rest => rest.all (fun a => a ≠ Act.writePCM)
  | _ :: rest => noWriteAfterClose rest

/-- The recognized events for a list of fragments (text plus language
extraction outcome). -/
def recEvents (frags : List (String × LangExtract)) : List RecognitionEvent :=
  frags.map (fun p => .recognized p.1 p.2)

/-! ## Helper lemmas -/

theorem append_ne_empty_left (a b : String) (h : a.length ≠ 0) : a ++ b ≠ "" := by
  intro he
  have hl := congrArg String.length he
  rw [String.length_append] at hl
  simp at hl
  exact h hl.1

theorem length_append_left_ne (a b : String) (h : a.length ≠ 0) : (a ++ b).length ≠ 0 := by
  rw [String.length_append]
  omega

/-- The message recorded by `canceled_handler` is never the empty string, so
`if error_message:` takes the failed branch after a cancellation. -/
theorem canceledMessage_ne_empty (d : CancellationDetails) : canceledMessage d ≠ "" := by
  unfold canceledMessage
  split
  · exact append_ne_empty_left _ _
      (length_append_left_ne _ _ (length_append_left_ne _ _ (by decide)))
  · exact append_ne_empty_left _ _ (by decide)

theorem pyTruthy_some_of_ne {m : String} (h : m ≠ "") : pyTruthy (some m) = true := by
  simp [pyTruthy]
  exact h

/-- Folding the handler step over recognized events appends the fragment
texts to `all_results` in arrival order. -/
theorem foldRec_results (frags : List (String × LangExtract)) (s : FileState) :
    ((recEvents frags).foldl stepFile s).all_results = s.all_results ++ frags.map Prod.fst := by
  induction frags generalizing s with
  | nil => simp [recEvents]
  | cons p rest ih =>
      simp only [recEvents, List.map_cons, List.foldl_cons] at *
      rw [ih]
      simp [stepFile, List.append_assoc]

/-- Folding the handler step over recognized events leaves `error_message`
unchanged. -/
theorem foldRec_error (frags : List (String × LangExtract)) (s : FileState) :
    ((recEvents frags).foldl stepFile s).error_message = s.error_message := by
  induction frags generalizing s with
  | nil => rfl
  | cons p rest ih =>
      simp only [recEvents, List.map_cons, List.foldl_cons] at *
      rw [ih]
      rfl

/-- Once `detected_language` is truthy, no handler invocation changes it. -/
theorem step_keeps_truthy (s : FileState) (e : RecognitionEvent)
    (h : pyTruthy s.detected_language = true) :
    (stepFile s e).detected_language = s.detected_language := by
  cases e <;> simp [stepFile, h]

/-- Once `detected_language` is truthy, no event sequence changes it. -/
theorem fold_keeps_truthy (events : List RecognitionEvent) (s : FileState)
    (h : pyTruthy s.detected_language = true) :
    (events.foldl stepFile s).detected_language = s.detected_language := by
  induction events generalizing s with
  | nil => rfl
  | cons e rest ih =>
      rw [List.foldl_cons]
      have hstep := step_keeps_truthy s e h
      rw [ih (stepFile s e) (by rw [hstep]; exact h), hstep]

theorem map_fst_isEmpty (frags : List (String × LangExtract)) :
    (frags.map Prod.fst).isEmpty = frags.isEmpty := by
  cases frags <;> rfl

theorem closeAfterEOFAux_writes (seen : Bool) (n : Nat) (rest : List Act) :
    closeAfterEOFAux seen (List.replicate n Act.writePCM ++ rest) =
      closeAfterEOFAux seen rest := by
  induction n with
  | zero => rfl
  | succ k ih => simp [List.replicate_succ, closeAfterEOFAux, ih]

theorem noWriteAfterClose_writes (n : Nat) (rest : List Act) :
    noWriteAfterClose (List.replicate n Act.writePCM ++ rest) = noWriteAfterClose rest := by
  induction n with
  | zero => rfl
  | succ k ih => simp [List.replicate_succ, noWriteAfterClose, ih]

/-! ## Claim theorems -/

/-- C5: if the engine emits `Canceled` after M ≥ 0 recognized fragments,
`transcribe_file` finalizes with status `failed`, error equal to the non-null
cancellation message (which carries the provider detail when the reason is
`Error`), and text equal to the space-join of the M fragments, or null when
M = 0. -/
theorem C5_canceled_failed (frags : List (String × LangExtract)) (d : CancellationDetails) :
    (transcribe_file (recEvents frags ++ [.canceled d])).status = "failed" ∧
    (transcribe_file (recEvents frags ++ [.canceled d])).error = some (canceledMessage d) ∧
    canceledMessage d ≠ "" ∧
    (transcribe_file (recEvents frags ++ [.canceled d])).text =
      (if frags.isEmpty then none else some (String.intercalate " " (frags.map Prod.fst))) ∧
    (d.reason = CancellationReason.error →
      canceledMessage d = "Recognition canceled: " ++ reasonStr CancellationReason.error
        ++ " - Details: " ++ d.error_details) := by
  have hR := foldRec_results frags initFileState
  have htr : pyTruthy (some (canceledMessage d)) = true :=
    pyTruthy_some_of_ne (canceledMessage_ne_empty d)
  unfold transcribe_file
  rw [List.foldl_append]
  obtain ⟨S, hS⟩ : ∃ S, (recEvents frags).foldl stepFile initFileState = S := ⟨_, rfl⟩
  rw [hS] at hR ⊢
  simp only [initFileState, List.nil_append] at hR
  have hstep : [RecognitionEvent.canceled d].foldl stepFile S =
      { S with error_message := some (canceledMessage d) } := rfl
  rw [hstep]
  refine ⟨?_, ?_, canceledMessage_ne_empty d, ?_, ?_⟩
  · simp [finalizeFile, htr]
  · simp [finalizeFile, htr]
  · simp [finalizeFile, htr, hR]
  · intro h
    simp [canceledMessage, h]

/-- Witness for C5 at one fragment and an error-reason cancellation. -/
theorem C5_canceled_failed_witness :
    (transcribe_file (recEvents [("hello", LangExtract.value (some "es"))] ++
       [.canceled ⟨CancellationReason.error, "boom"⟩])).status = "failed" ∧
    canceledMessage ⟨CancellationReason.error, "boom"⟩ =
      "Recognition canceled: " ++ reasonStr CancellationReason.error ++ " - Details: " ++ "boom" :=
  ⟨(C5_canceled_failed [("hello", LangExtract.value (some "es"))]
      ⟨CancellationReason.error, "boom"⟩).1,
   (C5_canceled_failed [("hello", LangExtract.value (some "es"))]
      ⟨CancellationReason.error, "boom"⟩).2.2.2.2 rfl⟩

/-- C6: when the event sequence ends with `SessionStopped` and no `Canceled`
was observed, `transcribe_file` yields status `completed` with the space-join
of the fragments in arrival order when at least one fragment was recognized,
and status `no_speech` with null text when none was. -/
theorem C6_stopped_aggregate (frags : List (String × LangExtract)) :
    ((frags ≠ []) →
      (transcribe_file (recEvents frags ++ [.sessionStopped])).status = "completed" ∧
      (transcribe_file (recEvents frags ++ [.sessionStopped])).text =
        some (String.intercalate " " (frags.map Prod.fst))) ∧
    ((frags = []) →
      (transcribe_file (recEvents frags ++ [.sessionStopped])).status = "no_speech" ∧
      (transcribe_file (recEvents frags ++ [.sessionStopped])).text = none) := by
  unfold transcribe_file
  rw [List.foldl_append]
  constructor
  · intro hne
    have hR := foldRec_results frags initFileState
    have hE := foldRec_error frags initFileState
    obtain ⟨S, hS⟩ : ∃ S, (recEvents frags).foldl stepFile initFileState = S := ⟨_, rfl⟩
    rw [hS] at hR hE ⊢
    simp only [initFileState, List.nil_append] at hR hE
    have hstep : [RecognitionEvent.sessionStopped].foldl stepFile S = S := rfl
    rw [hstep]
    have hfalse : pyTruthy S.error_message = false := by rw [hE]; rfl
    constructor
    · simp [finalizeFile, hfalse, hR, hne]
    · simp [finalizeFile, hfalse, hR, hne]
  · intro hnil
    subst hnil
    exact ⟨rfl, rfl⟩

/-- Witness for C6 at two fragments and at zero fragments. -/
theorem C6_stopped_aggregate_witness :
    ((transcribe_file (recEvents [("hello", LangExtract.value (some "en-US")),
        ("world", LangExtract.value (some "en-US"))] ++ [.sessionStopped])).status = "completed" ∧
     (transcribe_file (recEvents [("hello", LangExtract.value (some "en-US")),
        ("world", LangExtract.value (some "en-US"))] ++ [.sessionStopped])).text =
        some "hello world") ∧
    ((transcribe_file (recEvents [] ++ [.sessionStopped])).status = "no_speech" ∧
     (transcribe_file (recEvents [] ++ [.sessionStopped])).text = none) :=
  ⟨by
    have h := (C6_stopped_aggregate [("hello", LangExtract.value (some "en-US")),
      ("world", LangExtract.value (some "en-US"))]).1 (by decide)
    exact ⟨h.1, by rw [h.2]; rfl⟩,
   (C6_stopped_aggregate []).2 rfl⟩

/-- C7 (amended): `detected_language` is captured from the first `Recognized`
event that yields a truthy (non-empty) language value — once a truthy value
is captured (including the `unknown` fallback when the extraction raises on
the first event), later events never change it; feeding languages
[es, en, en] yields aggregated language es. -/
theorem C7_language_first_truthy :
    (∀ (s : FileState) (e : RecognitionEvent), pyTruthy s.detected_language = true →
        (stepFile s e).detected_language = s.detected_language) ∧
    (transcribe_file [.recognized "a" (.value (some "es")), .recognized "b" (.value (some "en")),
        .recognized "c" (.value (some "en")), .sessionStopped]).language = some "es" ∧
    (∀ (t : String) (rest : List RecognitionEvent),
        ((RecognitionEvent.recognized t LangExtract.raised :: rest).foldl stepFile
            initFileState).detected_language = some "unknown") := by
  refine ⟨step_keeps_truthy, by decide, ?_⟩
  intro t rest
  rw [List.foldl_cons]
  have h1 : (stepFile initFileState (.recognized t .raised)).detected_language
      = some "unknown" := rfl
  rw [fold_keeps_truthy rest _ (by rw [h1]; rfl), h1]

/-- Witness for C7: a captured truthy language survives a later event, and a
raising extraction on the first event pins the language to `unknown`. -/
theorem C7_language_first_truthy_witness :
    (stepFile ⟨[], some "es", none⟩ (.recognized "b" (.value (some "en")))).detected_language
      = some "es" ∧
    (([RecognitionEvent.recognized "x" LangExtract.raised,
       RecognitionEvent.recognized "y" (.value (some "fr"))].foldl stepFile
        initFileState).detected_language = some "unknown") :=
  ⟨C7_language_first_truthy.1 ⟨[], some "es", none⟩ (.recognized "b" (.value (some "en")))
      (by decide),
   C7_language_first_truthy.2.2 "x" [RecognitionEvent.recognized "y" (.value (some "fr"))]⟩

/-- C7 counterexample: when the first `Recognized` event yields the falsy
empty-string language, a later event does change the captured language — the
guard is Python truthiness, not first-event-only — so the aggregated language
comes from the second event, not the first. -/
theorem C7_cex :
    ([RecognitionEvent.recognized "a" (.value (some ""))].foldl stepFile
        initFileState).detected_language = some "" ∧
    ([RecognitionEvent.recognized "a" (.value (some "")),
      RecognitionEvent.recognized "b" (.value (some "en"))].foldl stepFile
        initFileState).detected_language = some "en" ∧
    (transcribe_file [.recognized "a" (.value (some "")), .sessionStopped]).language
      = some "unknown" ∧
    (transcribe_file [.recognized "a" (.value (some "")),
      .recognized "b" (.value (some "en")), .sessionStopped]).language = some "en" := by
  decide

/-- C10: every result dictionary returned by `transcribe_file` has a non-null
language field, in all three outcome branches. -/
theorem C10_language_nonnull (events : List RecognitionEvent) :
    (transcribe_file events).language.isSome = true := by
  unfold transcribe_file finalizeFile
  split_ifs <;> rfl

/-- Every result dictionary has all four contract fields when viewed as a
JSON object. -/
theorem hasAllFour_toMsg (r : ResultMsg) : hasAllFour r.toMsg = true := rfl

/-- C1 (amended): file-mode aggregates always carry all four fields with a
status from the contract's list; one-shot aggregates carry all four fields
but the non-recognized branch uses status `no_match_or_error`, outside the
list; the one-shot exception aggregate carries all four fields with status
`failed`; continuous `recognized` events carry all four fields with an
allowed status; continuous `error` and `stopped` events carry only the
`status` and `error` fields. -/
theorem C1_outbound_contract :
    (∀ s : FileState, hasAllFour (finalizeFile s).toMsg = true ∧
        allowedStatuses.contains (finalizeFile s).status = true) ∧
    (∀ r : OnceResult, hasAllFour (recognize_from_stream r).toMsg = true ∧
        ((recognize_from_stream r).status = "completed" ∨
         (recognize_from_stream r).status = "no_match_or_error")) ∧
    (∀ e : String, hasAllFour (onceFailedMsg e).toMsg = true ∧
        allowedStatuses.contains (onceFailedMsg e).status = true) ∧
    (∀ (l : Option String) (t : String), hasAllFour (contRecognizedMsg l t) = true ∧
        statusAllowed (contRecognizedMsg l t) = true) ∧
    (∀ e : String, (contErrorMsg e).map Prod.fst = ["status", "error"]) ∧
    (contStoppedMsg.map Prod.fst = ["status", "error"]) := by
  refine ⟨?_, ?_, ?_, ?_, fun e => rfl, rfl⟩
  · intro s
    refine ⟨hasAllFour_toMsg _, ?_⟩
    unfold finalizeFile
    split_ifs <;> rfl
  · intro r
    unfold recognize_from_stream
    split_ifs <;> first
      | exact ⟨rfl, Or.inl rfl⟩
      | exact ⟨rfl, Or.inr rfl⟩
  · intro e
    exact ⟨rfl, rfl⟩
  · intro l t
    exact ⟨rfl, rfl⟩

/-- C1 counterexample: the continuous `stopped` and `error` events lack the
`language` and `text` fields, and the one-shot non-recognized aggregate uses
the status `no_match_or_error`, which is not in the contract's status list. -/
theorem C1_cex :
    hasAllFour contStoppedMsg = false ∧
    hasAllFour (contErrorMsg "e") = false ∧
    allowedStatuses.contains
      (recognize_from_stream ⟨SdkReason.noMatch, "", none, ""⟩).status = false := by
  decide

/-- One continuous-mode event produces a terminal outbound message exactly
when the event itself is terminal. -/
theorem terminal_msg_event (e : RecognitionEvent) :
    (recognize_continuous_msgs [e]).countP isTerminalMsg =
      (if isTerminalEvent e then 1 else 0) := by
  cases e with
  | recognized t lang => cases lang <;> rfl
  | noMatch => rfl
  | sessionStarted => rfl
  | sessionStopped => rfl
  | canceled d => rfl

/-- C4 (amended): in continuous mode the caller receives one terminal
(`stopped` or `error`) message per terminal engine event — so a `Canceled`
followed by `SessionStopped` yields two terminal messages, not one — while
`recognized` events are never terminal; in file mode the aggregation yields
one result dictionary per session by construction. -/
theorem C4_terminal_count (events : List RecognitionEvent) :
    (recognize_continuous_msgs events).countP isTerminalMsg =
      events.countP isTerminalEvent := by
  induction events with
  | nil => rfl
  | cons e rest ih =>
      have h1 : recognize_continuous_msgs (e :: rest) =
          recognize_continuous_msgs [e] ++ recognize_continuous_msgs rest := by
        simp only [recognize_continuous_msgs]
        cases hc : continuousMessage e <;> simp [List.filterMap_cons, hc]
      rw [h1, List.countP_append, terminal_msg_event e, ih, List.countP_cons]
      cases isTerminalEvent e <;> simp [Nat.add_comm]

/-- C4 counterexample: a `Canceled` event followed by `SessionStopped`
delivers two terminal messages (`error`, then `stopped`) to the caller of the
continuous endpoint — not exactly one. -/
theorem C4_cex :
    (recognize_continuous_msgs
      [RecognitionEvent.canceled ⟨CancellationReason.error, "boom"⟩,
       RecognitionEvent.sessionStopped]).countP isTerminalMsg = 2 := by
  decide

/-- C2 (amended): in the one-shot handler no cleanup step is skipped by any
earlier failure; in the continuous handler no step is skipped as long as
closing the push buffer does not raise — recognizer-stop and process-kill
failures are caught and logged and the next step still runs — but an
unguarded push-buffer close failure aborts the remaining steps. -/
theorem C2_no_step_skipped :
    (∀ (r : SessionRes) (f : Faults), f.closeRaises = false →
      Step.disconnect ∈ (teardownContinuous r f).steps ∧
      Step.closeWebsocket ∈ (teardownContinuous r f).steps ∧
      (r.processSet = true → r.processRunning = true →
        Step.killProcess ∈ (teardownContinuous r f).steps) ∧
      (teardownContinuous r f).raised = false) ∧
    (∀ (r : SessionRes) (f : Faults),
      Step.disconnect ∈ (teardownOnce r f).steps ∧
      Step.closeWebsocket ∈ (teardownOnce r f).steps ∧
      (teardownOnce r f).raised = false) ∧
    (∀ (r : SessionRes) (f : Faults), r.recognizerSet = true → f.stopRaises = true →
      Step.stopRecognizer ∈ (teardownContinuous r f).loggedFailures) ∧
    (∀ (r : SessionRes) (f : Faults), r.processSet = true → r.processRunning = true →
      f.closeRaises = false → f.killRaises = true →
      Step.killProcess ∈ (teardownContinuous r f).loggedFailures) := by
  refine ⟨?_, ?_, ?_, ?_⟩ <;>
    (intro r f
     rcases r with ⟨a, b, c, d⟩
     rcases f with ⟨p, q, u, v⟩
     cases a <;> cases b <;> cases c <;> cases d <;>
       cases p <;> cases q <;> cases u <;> cases v <;>
       (intros; first | decide | simp_all))

/-- Witness for C2 at a fully-set-up session where the recognizer stop and
the kill both raise: every remaining step still runs and both failures are
logged. -/
theorem C2_no_step_skipped_witness :
    Step.disconnect ∈ (teardownContinuous ⟨true, true, true, true⟩
      ⟨true, false, true, true⟩).steps ∧
    Step.killProcess ∈ (teardownContinuous ⟨true, true, true, true⟩
      ⟨true, false, true, true⟩).steps ∧
    Step.closeWebsocket ∈ (teardownOnce ⟨true, true, true, false⟩
      ⟨false, true, false, false⟩).steps ∧
    Step.stopRecognizer ∈ (teardownContinuous ⟨true, true, true, true⟩
      ⟨true, false, true, true⟩).loggedFailures ∧
    Step.killProcess ∈ (teardownContinuous ⟨true, true, true, true⟩
      ⟨true, false, true, true⟩).loggedFailures :=
  ⟨(C2_no_step_skipped.1 ⟨true, true, true, true⟩ ⟨true, false, true, true⟩ rfl).1,
   (C2_no_step_skipped.1 ⟨true, true, true, true⟩ ⟨true, false, true, true⟩ rfl).2.2.1 rfl rfl,
   (C2_no_step_skipped.2.1 ⟨true, true, true, false⟩ ⟨false, true, false, false⟩).2.1,
   C2_no_step_skipped.2.2.1 ⟨true, true, true, true⟩ ⟨true, false, true, true⟩ rfl rfl,
   C2_no_step_skipped.2.2.2 ⟨true, true, true, true⟩ ⟨true, false, true, true⟩ rfl rfl rfl rfl⟩

/-- C2 counterexample: in the continuous handler, if closing the push buffer
raises, the teardown aborts — the process kill, the registry removal and the
websocket close are all skipped, contradicting the claim that no step is
skipped because an earlier one failed. -/
theorem C2_cex :
    (teardownContinuous ⟨true, true, true, true⟩ ⟨false, true, false, false⟩).steps =
      [Step.stopRecognizer, Step.closeStream] ∧
    (teardownContinuous ⟨true, true, true, true⟩ ⟨false, true, false, false⟩).raised = true ∧
    Step.killProcess ∉
      (teardownContinuous ⟨true, true, true, true⟩ ⟨false, true, false, false⟩).steps ∧
    Step.disconnect ∉
      (teardownContinuous ⟨true, true, true, true⟩ ⟨false, true, false, false⟩).steps ∧
    Step.closeWebsocket ∉
      (teardownContinuous ⟨true, true, true, true⟩ ⟨false, true, false, false⟩).steps := by
  decide

/-- C8 (amended): for a fully-created session whose push-buffer close does
not raise, the continuous teardown performs the recognizer stop and the
push-buffer close exactly once each, in that order; the process kill occurs
(exactly once, after the close) if and only if the transcoder has not
already exited; then the registry entry is released and the outbound
connection closed, and the session reaches its terminal Closed state. -/
theorem C8_teardown_order (r : SessionRes) (f : Faults)
    (h1 : r.recognizerSet = true) (h2 : r.streamSet = true) (h3 : r.processSet = true)
    (h4 : f.closeRaises = false) :
    (teardownContinuous r f).steps =
      [Step.stopRecognizer, Step.closeStream] ++
        (if r.processRunning then [Step.killProcess] else []) ++
        [Step.disconnect, Step.closeWebsocket] ∧
    reachedClosed (teardownContinuous r f) = true := by
  rcases r with ⟨a, b, c, d⟩
  rcases f with ⟨p, q, u, v⟩
  simp only at h1 h2 h3 h4
  subst h1 h2 h3 h4
  cases d <;> cases p <;> cases u <;> cases v <;> decide

/-- Witness for C8 with the transcoder still running at teardown. -/
theorem C8_teardown_order_witness :
    (teardownContinuous ⟨true, true, true, true⟩ ⟨false, false, false, false⟩).steps =
      [Step.stopRecognizer, Step.closeStream] ++ [Step.killProcess] ++
        [Step.disconnect, Step.closeWebsocket] ∧
    reachedClosed (teardownContinuous ⟨true, true, true, true⟩
      ⟨false, false, false, false⟩) = true :=
  C8_teardown_order ⟨true, true, true, true⟩ ⟨false, false, false, false⟩ rfl rfl rfl rfl

/-- C8 counterexample: when the transcoder already exited naturally before
the teardown (a legitimate teardown trigger: clean completion), the guarded
kill is skipped entirely — the process kill occurs zero times, not exactly
once. -/
theorem C8_cex :
    (teardownContinuous ⟨true, true, true, false⟩
      ⟨false, false, false, false⟩).steps.count Step.killProcess = 0 ∧
    reachedClosed (teardownContinuous ⟨true, true, true, false⟩
      ⟨false, false, false, false⟩) = true := by
  decide

/-- C9: the guarded transcoder-terminate operation tolerates being invoked
twice — after a natural exit both invocations are no-ops that do not raise
and perform zero kills, and from any process state two invocations never
raise and never perform the kill step more than once. -/
theorem C9_terminate_idempotent (p : Proc) (c c2 c3 : Int) :
    terminateTwice (naturalExit c) c2 c3 = Except.ok (naturalExit c, 0) ∧
    (∃ q n, terminateTwice p c2 c3 = Except.ok (q, n) ∧ n ≤ 1) := by
  constructor
  · rfl
  · rcases p with ⟨rc⟩
    cases rc with
    | none => exact ⟨⟨some c2⟩, 1, rfl, le_refl 1⟩
    | some v => exact ⟨⟨some v⟩, 0, rfl, by omega⟩

/-- C3 (amended): on the normal exit path — where the inbound loop ends by
break and `await stdout_task` joins the reader before the `finally` block —
the push-buffer close happens strictly after the stdout reader observes
end-of-stream and no PCM chunk is written after the close, for any number of
PCM chunks. -/
theorem C3_normal_path_ordering (n : Nat) :
    closeAfterEOF (normalExitTrace n) = true ∧
    noWriteAfterClose (normalExitTrace n) = true := by
  constructor
  · unfold closeAfterEOF normalExitTrace readerProg
    rw [List.append_assoc, closeAfterEOFAux_writes]
    rfl
  · unfold normalExitTrace readerProg
    rw [List.append_assoc, noWriteAfterClose_writes]
    rfl

/-- C3 counterexample: on an exception path `await stdout_task` is skipped,
so the cleanup's `stream.close()` may interleave before the orphaned reader
finishes — an admissible trace closes the push buffer before the reader
observes end-of-stream and has a PCM write after the close. -/
theorem C3_cex :
    exceptionTraceAdmissible 1 [Act.closeStream, Act.writePCM, Act.readerEOF] = true ∧
    closeAfterEOF [Act.closeStream, Act.writePCM, Act.readerEOF] = false ∧
    noWriteAfterClose [Act.closeStream, Act.writePCM, Act.readerEOF] = false := by
  decide

end Speech
